import Mathlib

/-!
# Verification of `mincore-rs`

A shallow embedding of the `mincore-rs` crate: the library function
`mincore_wrapper` (src/lib.rs) and the example consumer `vmtouch_lite`
(examples/vmtouch_lite.rs).

`mincore_wrapper` is a sequence of OS calls (`fstat`, `page_size`, `mmap`,
`mincore`, `munmap`) joined by pure control flow.  We embed it as a pure
function of an *environment* (`Env`) recording the outcome each OS call would
report during the single invocation being modelled; the embedding returns the
call's `Outcome` (success value, error code, or panic) together with a trace of
the resource-relevant events that happened (mapping creation, residency query
success/failure, mapping release, buffer length commit), so that
resource-lifetime properties can be stated.

Machine integers are modelled as `Nat`/`Int` with explicit bounds:
`st_size` is an `i64` (`Int`), `st_mode` a `u32` (`Nat`), `usize` arithmetic
is taken modulo `2^64` where the source can overflow, and the status bytes
written by `mincore` are reduced modulo `256` (they are `u8`).
-/

namespace Mincore

/-- `usize::MAX + 1` on the 64-bit platforms the crate targets. -/
def USIZE_MOD : Nat := 2 ^ 64

/-- The file-type bits mask of `st_mode` (`S_IFMT`). -/
def S_IFMT : Nat := 0o170000

/-- Regular-file bits of `st_mode` (`S_IFREG`). -/
def S_IFREG : Nat := 0o100000

/-- Directory bits of `st_mode` (`S_IFDIR`). -/
def S_IFDIR : Nat := 0o040000

/-- `rustix::fs::FileType` (the variants relevant here). -/
inductive FileType where
  | RegularFile
  | Directory
  | Unknown
deriving DecidableEq, Repr

/-- `rustix::fs::FileType::from_raw_mode`: classify `st_mode` by its
`S_IFMT` bits. -/
def FileType.from_raw_mode (st_mode : Nat) : FileType :=
  if st_mode &&& S_IFMT == S_IFREG then .RegularFile
  else if st_mode &&& S_IFMT == S_IFDIR then .Directory
  else .Unknown

/-- The fields of `struct stat` that `mincore_wrapper` reads. -/
structure Stat where
  st_mode : Nat
  st_size : Int
deriving DecidableEq, Repr

/-- `rustix` error numbers used by the wrapper (raw Linux `errno` values). -/
def Errno.ACCESS : Nat := 13

/-- Linux `EINVAL`, the error `mmap` reports for a zero-length request. -/
def Errno.INVAL : Nat := 22

/-- Linux `ENOMEM`. -/
def Errno.NOMEM : Nat := 12

/-- Linux `EAGAIN`. -/
def Errno.AGAIN : Nat := 11

/-- `usize::try_from(v)` for `v : i64` on a 64-bit platform: succeeds exactly
when `v` is non-negative (and within `usize` range, which holds for every
non-negative `i64`); the general range guard is kept for faithfulness to
`TryFrom`. -/
def usize_try_from (v : Int) : Option Nat :=
  if 0 ≤ v ∧ v < (USIZE_MOD : Int) then some v.toNat else none

/-- `std::io::Error::last_os_error().raw_os_error()`: the thread's current
`errno` value, always present. -/
def last_os_error_raw (errno_val : Int) : Option Int :=
  some errno_val

/-- `rustix::io::Errno::from_io_error`: recovers an `Errno` from an
`std::io::Error` when the raw OS error is present and a valid Linux error
number (the `linux_raw` backend accepts `1..4096`). -/
def errno_from_io_error (raw : Option Int) : Option Nat :=
  match raw with
  | none => none
  | some r => if 1 ≤ r ∧ r < 4096 then some r.toNat else none

/-- `vec_len = (file_size + page_size - 1) / page_size`, computed in `usize`
arithmetic (wrapping modulo `2^64`), as on line 32 of src/lib.rs. -/
def vec_len_expr (file_size page_size : Nat) : Nat :=
  ((file_size + page_size - 1) % USIZE_MOD) / page_size

/-- The outcome of one `mincore_wrapper` call: a residency vector, a
propagated `Errno`, or a panic (`unwrap` failure). -/
inductive Outcome where
  | ok (v : List Bool)
  | err (e : Nat)
  | panic
deriving DecidableEq, Repr

/-- Resource-relevant events of one call, in program order. -/
inductive Event where
  | mmapped
  | mincored_ok
  | mincored_fail
  | munmapped
  | setLen (n : Nat)
deriving DecidableEq, Repr

/-- The OS oracle for a single `mincore_wrapper` invocation: the outcome each
OS call would report, in the order the wrapper makes them.  Error codes are
raw `errno` values. -/
structure Env where
  /-- Outcome of `fstat(fd)`. -/
  fstat_result : Except Nat Stat
  /-- `rustix::param::page_size()`. -/
  page_size : Nat
  /-- Outcome of `mmap(NULL, file_size, PROT_NONE, MAP_SHARED, fd, 0)`:
  an address on success, an `errno` on failure. -/
  mmap_result : Except Nat Nat
  /-- Return code of `libc::mincore` (`0` success, nonzero failure). -/
  mincore_ret : Int
  /-- The `errno` value observed by `last_os_error()` right after a failing
  `mincore` call. -/
  errno_after_mincore : Int
  /-- The status byte `mincore` stores at index `i` on success (a `u8`,
  reduced modulo `256` where read). -/
  mincore_bytes : Nat → Nat
  /-- Outcome of `munmap(file_mmap, file_size)`. -/
  munmap_result : Except Nat Unit

/-- Shallow embedding of `pub fn mincore_wrapper<Fd: AsFd>(fd: &Fd) ->
RustixResult<Vec<bool>>` (src/lib.rs lines 23-62), translated branch by
branch:

1. `let file_stat = fstat(fd)?;`
2. reject non-regular files with `Errno::ACCESS`;
3. `let file_size = usize::try_from(file_stat.st_size).unwrap();`
   (`None` panics);
4. `let vec_len = (file_size+page_size-1)/page_size;`
5. `mmap(...)?` (failure propagates, nothing yet to clean up);
6. `if mincore(...) != 0` return
   `Err(Errno::from_io_error(&Error::last_os_error()).unwrap())`
   — note: *without* calling `munmap`;
7. `munmap(file_mmap, file_size)?;`
8. `vec_out.set_len(vec_len);` then map each byte to `x != 0`.

The second component is the event trace. -/
def mincore_wrapper (env : Env) : Outcome × List Event :=
  match env.fstat_result with
  | .error e => (.err e, [])
  | .ok file_stat =>
    if FileType.from_raw_mode file_stat.st_mode ≠ FileType.RegularFile then
      (.err Errno.ACCESS, [])
    else
      match usize_try_from file_stat.st_size with
      | none => (.panic, [])
      | some file_size =>
        let page_size := env.page_size
        let vec_len := vec_len_expr file_size page_size
        match env.mmap_result with
        | .error e => (.err e, [])
        | .ok _file_mmap =>
          if env.mincore_ret ≠ 0 then
            match errno_from_io_error (last_os_error_raw env.errno_after_mincore) with
            | none => (.panic, [.mmapped, .mincored_fail])
            | some e => (.err e, [.mmapped, .mincored_fail])
          else
            match env.munmap_result with
            | .error e => (.err e, [.mmapped, .mincored_ok, .munmapped])
            | .ok _ =>
              (.ok ((List.range vec_len).map
                     (fun i => decide (env.mincore_bytes i % 256 ≠ 0))),
               [.mmapped, .mincored_ok, .munmapped, .setLen vec_len])

/-- Shallow embedding of `main` from examples/vmtouch_lite.rs.  `args_vec` is
`std::env::args().collect()` (program name included); `open_result` is the
outcome of `File::open` (error already formatted by `Display`); and
`probe_result` the outcome of `mincore_wrapper` (error formatted by
`Display`).  Returns `.ok` with the printed line, or `.error` with the
message carried by the `Err` (which makes the process exit non-zero). -/
def vmtouch_main (args_vec : List String)
    (open_result : Except String Unit)
    (probe_result : Except String (List Bool)) : Except String String :=
  if args_vec.length ≠ 2 then
    .error ("Usage: " ++ args_vec.headD "" ++ " [filename]")
  else
    match open_result with
    | .error e => .error ("Error opening file: " ++ e)
    | .ok _ =>
      match probe_result with
      | .error e => .error ("Error finding cached blocks: " ++ e)
      | .ok mincore_map =>
        let page_count := mincore_map.length
        let mapped_page_count := (mincore_map.filter (fun x => x)).length
        .ok ("Mapped page count " ++ toString mapped_page_count ++ "/"
              ++ toString page_count)

/-- Spec-side reading of a status byte ("treat any nonzero low bit as
resident"), for comparison with the code's whole-byte test. -/
def low_bit_residency (b : Nat) : Bool :=
  b % 2 != 0

/-! ### Concrete single-call environments used in counterexamples and
witnesses.  `0o100644` is `st_mode` of an ordinary regular file, `0o040755`
that of a directory; page size is the common 4096. -/

/-- A call on a one-page regular file where `mmap` succeeds and the
`mincore` query fails with `errno` set to `e`. -/
def envQueryFail (e : Int) : Env where
  fstat_result := .ok ⟨0o100644, 4096⟩
  page_size := 4096
  mmap_result := .ok 1
  mincore_ret := -1
  errno_after_mincore := e
  mincore_bytes := fun _ => 0
  munmap_result := .ok ()

/-- A fully successful call on a two-page (8192-byte) regular file whose
first page is resident (`mincore` writes byte 1) and second is not. -/
def envAllOk : Env where
  fstat_result := .ok ⟨0o100644, 8192⟩
  page_size := 4096
  mmap_result := .ok 1
  mincore_ret := 0
  errno_after_mincore := 0
  mincore_bytes := fun i => if i = 0 then 1 else 0
  munmap_result := .ok ()

/-- A call on a two-page regular file where the query succeeds but the
`munmap` release fails with `EINVAL`. -/
def envMunmapFail : Env where
  fstat_result := .ok ⟨0o100644, 8192⟩
  page_size := 4096
  mmap_result := .ok 1
  mincore_ret := 0
  errno_after_mincore := 0
  mincore_bytes := fun _ => 1
  munmap_result := .error Errno.INVAL

/-- A call on a zero-length regular file where the zero-length `mmap`
request fails with `EINVAL`, as Linux `mmap` does for `length == 0` (the
failure the source comment on the `mmap` length argument anticipates). -/
def envZeroEinval : Env where
  fstat_result := .ok ⟨0o100644, 0⟩
  page_size := 4096
  mmap_result := .error Errno.INVAL
  mincore_ret := 0
  errno_after_mincore := 0
  mincore_bytes := fun _ => 0
  munmap_result := .ok ()

/-- A call on a zero-length regular file where every OS call succeeds. -/
def envZeroOk : Env where
  fstat_result := .ok ⟨0o100644, 0⟩
  page_size := 4096
  mmap_result := .ok 1
  mincore_ret := 0
  errno_after_mincore := 0
  mincore_bytes := fun _ => 0
  munmap_result := .ok ()

/-- A fully successful call on a one-byte regular file (one page) where the
query writes status byte `2`: low bit clear, a higher bit set. -/
def envByteTwo : Env where
  fstat_result := .ok ⟨0o100644, 1⟩
  page_size := 4096
  mmap_result := .ok 1
  mincore_ret := 0
  errno_after_mincore := 0
  mincore_bytes := fun _ => 2
  munmap_result := .ok ()

/-- A call whose `fstat` reports a directory. -/
def envDir : Env where
  fstat_result := .ok ⟨0o040755, 0⟩
  page_size := 4096
  mmap_result := .ok 1
  mincore_ret := 0
  errno_after_mincore := 0
  mincore_bytes := fun _ => 0
  munmap_result := .ok ()

/-- A call whose `fstat` reports a regular file with a negative (corrupt)
`st_size`. -/
def envNegSize : Env where
  fstat_result := .ok ⟨0o100644, -1⟩
  page_size := 4096
  mmap_result := .ok 1
  mincore_ret := 0
  errno_after_mincore := 0
  mincore_bytes := fun _ => 0
  munmap_result := .ok ()

end Mincore

namespace Mincore

/-- Exhaustive case analysis of `mincore_wrapper`: every call falls into one
of the eight return paths of the source, each identified by the oracle
conditions that select it. -/
theorem wrapper_eq_cases (env : Env) :
    (∃ e, env.fstat_result = .error e ∧
       mincore_wrapper env = (.err e, [])) ∨
    (∃ stat, env.fstat_result = .ok stat ∧
       FileType.from_raw_mode stat.st_mode ≠ .RegularFile ∧
       mincore_wrapper env = (.err Errno.ACCESS, [])) ∨
    (∃ stat, env.fstat_result = .ok stat ∧
       FileType.from_raw_mode stat.st_mode = .RegularFile ∧
       usize_try_from stat.st_size = none ∧
       mincore_wrapper env = (.panic, [])) ∨
    (∃ stat fs e, env.fstat_result = .ok stat ∧
       FileType.from_raw_mode stat.st_mode = .RegularFile ∧
       usize_try_from stat.st_size = some fs ∧
       env.mmap_result = .error e ∧
       mincore_wrapper env = (.err e, [])) ∨
    (∃ stat fs addr, env.fstat_result = .ok stat ∧
       FileType.from_raw_mode stat.st_mode = .RegularFile ∧
       usize_try_from stat.st_size = some fs ∧
       env.mmap_result = .ok addr ∧
       env.mincore_ret ≠ 0 ∧
       errno_from_io_error (last_os_error_raw env.errno_after_mincore) = none ∧
       mincore_wrapper env = (.panic, [.mmapped, .mincored_fail])) ∨
    (∃ stat fs addr e, env.fstat_result = .ok stat ∧
       FileType.from_raw_mode stat.st_mode = .RegularFile ∧
       usize_try_from stat.st_size = some fs ∧
       env.mmap_result = .ok addr ∧
       env.mincore_ret ≠ 0 ∧
       errno_from_io_error (last_os_error_raw env.errno_after_mincore) = some e ∧
       mincore_wrapper env = (.err e, [.mmapped, .mincored_fail])) ∨
    (∃ stat fs addr e, env.fstat_result = .ok stat ∧
       FileType.from_raw_mode stat.st_mode = .RegularFile ∧
       usize_try_from stat.st_size = some fs ∧
       env.mmap_result = .ok addr ∧
       env.mincore_ret = 0 ∧
       env.munmap_result = .error e ∧
       mincore_wrapper env = (.err e, [.mmapped, .mincored_ok, .munmapped])) ∨
    (∃ stat fs addr, env.fstat_result = .ok stat ∧
       FileType.from_raw_mode stat.st_mode = .RegularFile ∧
       usize_try_from stat.st_size = some fs ∧
       env.mmap_result = .ok addr ∧
       env.mincore_ret = 0 ∧
       env.munmap_result = .ok () ∧
       mincore_wrapper env =
         (.ok ((List.range (vec_len_expr fs env.page_size)).map
                (fun i => decide (env.mincore_bytes i % 256 ≠ 0))),
          [.mmapped, .mincored_ok, .munmapped,
           .setLen (vec_len_expr fs env.page_size)])) := by
  rcases hf : env.fstat_result with e | stat
  · exact Or.inl ⟨e, rfl, by simp [mincore_wrapper, hf]⟩
  by_cases hreg : FileType.from_raw_mode stat.st_mode = .RegularFile
  case neg =>
    exact Or.inr (Or.inl ⟨stat, rfl, hreg, by simp [mincore_wrapper, hf, hreg]⟩)
  rcases ht : usize_try_from stat.st_size with _ | fs
  · exact Or.inr (Or.inr (Or.inl ⟨stat, rfl, hreg,
      ht, by simp [mincore_wrapper, hf, hreg, ht]⟩))
  rcases hm : env.mmap_result with e | addr
  · exact Or.inr (Or.inr (Or.inr (Or.inl ⟨stat, fs, e, rfl, hreg, ht, rfl,
      by simp [mincore_wrapper, hf, hreg, ht, hm]⟩)))
  by_cases hr : env.mincore_ret ≠ 0
  case pos =>
    rcases he : errno_from_io_error (last_os_error_raw env.errno_after_mincore)
      with _ | e2
    · exact Or.inr (Or.inr (Or.inr (Or.inr (Or.inl ⟨stat, fs, addr, rfl, hreg,
        ht, rfl, hr, rfl, by simp [mincore_wrapper, hf, hreg, ht, hm, hr, he]⟩))))
    · exact Or.inr (Or.inr (Or.inr (Or.inr (Or.inr (Or.inl ⟨stat, fs, addr, e2,
        rfl, hreg, ht, rfl, hr, rfl,
        by simp [mincore_wrapper, hf, hreg, ht, hm, hr, he]⟩)))))
  case neg =>
    rw [not_not] at hr
    rcases hu : env.munmap_result with e2 | u
    · exact Or.inr (Or.inr (Or.inr (Or.inr (Or.inr (Or.inr (Or.inl ⟨stat, fs,
        addr, e2, rfl, hreg, ht, rfl, hr, rfl,
        by simp [mincore_wrapper, hf, hreg, ht, hm, hr, hu]⟩))))))
    · cases u
      exact Or.inr (Or.inr (Or.inr (Or.inr (Or.inr (Or.inr (Or.inr ⟨stat, fs,
        addr, rfl, hreg, ht, rfl, hr, rfl,
        by simp [mincore_wrapper, hf, hreg, ht, hm, hr, hu]⟩))))))

/-- The size conversion succeeds on any size an `fstat` of a real file can
report (a non-negative `i64`). -/
theorem usize_try_from_of_nonneg (v : Int) (h : 0 ≤ v) (h' : v < 2 ^ 63) :
    usize_try_from v = some v.toNat := by
  have hmod : (USIZE_MOD : Int) = 2 ^ 64 := by norm_num [USIZE_MOD]
  have : v < (USIZE_MOD : Int) := by rw [hmod]; calc v < 2 ^ 63 := h'
                                                   _ ≤ 2 ^ 64 := by norm_num
  simp [usize_try_from, h, this]

/-- C1: on the return path where the residency query fails (here with
`errno = 12`, `ENOMEM`), `mincore_wrapper` propagates the query's error but
never releases the mapping it successfully created: the event trace records
the mapping creation and the query failure, and contains no release.  This
contradicts the claim that every successfully created mapping is released
before the call returns. -/
theorem C1_query_failure_skips_release :
    mincore_wrapper (envQueryFail 12)
      = (.err Errno.NOMEM, [.mmapped, .mincored_fail]) ∧
    Event.mmapped ∈ (mincore_wrapper (envQueryFail 12)).2 ∧
    Event.munmapped ∉ (mincore_wrapper (envQueryFail 12)).2 := by
  decide

/-- C2 (counterexample): for a zero-length regular file whose zero-length
`mmap` request fails with `EINVAL` — the behaviour Linux documents for
`length == 0` and the source comment on the `mmap` length argument
explicitly tolerates — `mincore_wrapper` returns that error instead of
succeeding with an empty vector. -/
theorem C2_zero_length_error_counterexample :
    envZeroEinval.fstat_result = .ok ⟨0o100644, 0⟩ ∧
    mincore_wrapper envZeroEinval = (.err Errno.INVAL, []) ∧
    (mincore_wrapper envZeroEinval).1 ≠ .ok [] :=
  ⟨rfl, by decide, by decide⟩

/-- C2 (amended): for a zero-length regular file the computed vector length
is 0, and *when the zero-length mapping request is accepted by the OS* (and
the query and release succeed), `mincore_wrapper` returns the empty
vector. -/
theorem C2_zero_length_empty_vector (env : Env) (stat : Stat) (addr : Nat)
    (hf : env.fstat_result = .ok stat)
    (hreg : FileType.from_raw_mode stat.st_mode = FileType.RegularFile)
    (hsz : stat.st_size = 0)
    (hps : 0 < env.page_size) (hps' : env.page_size ≤ USIZE_MOD)
    (hm : env.mmap_result = .ok addr)
    (hr : env.mincore_ret = 0)
    (hu : env.munmap_result = .ok ()) :
    (mincore_wrapper env).1 = .ok [] := by
  have h0 : usize_try_from stat.st_size = some 0 := by
    rw [hsz]
    simpa using usize_try_from_of_nonneg 0 (by norm_num) (by norm_num)
  have hv : vec_len_expr 0 env.page_size = 0 := by
    unfold vec_len_expr USIZE_MOD
    unfold USIZE_MOD at hps'
    rw [Nat.mod_eq_of_lt (by omega)]
    exact Nat.div_eq_of_lt (by omega)
  simp [mincore_wrapper, hf, hreg, h0, hm, hr, hu, hv]

/-- C2 (witness): a concrete zero-length call in which all OS calls succeed
returns the empty vector. -/
theorem C2_zero_length_empty_vector_witness :
    (mincore_wrapper envZeroOk).1 = .ok [] :=
  C2_zero_length_empty_vector envZeroOk ⟨0o100644, 0⟩ 1 rfl (by decide) rfl
    (by decide) (by decide) rfl rfl rfl

/-- C4 (counterexample): on a successful one-page call in which the query
writes status byte `2` (low bit clear, a higher bit set) the wrapper reports
the page resident (`true`), whereas the low-bit reading of the spec calls it
non-resident: the code tests the whole byte (`x != 0`), not just the low
bit. -/
theorem C4_higher_bit_counts_as_resident :
    (mincore_wrapper envByteTwo).1 = .ok [true] ∧
    envByteTwo.mincore_bytes 0 = 2 ∧
    low_bit_residency (envByteTwo.mincore_bytes 0) = false := by
  decide

/-- C4 (amended): in the returned vector, element `i` is `true` if and only
if the `i`-th status byte written by the residency query is nonzero as a
whole byte; no bits are masked off. -/
theorem C4_element_iff_nonzero_byte (env : Env) (v : List Bool)
    (hok : (mincore_wrapper env).1 = .ok v)
    (i : Nat) (hi : i < v.length) :
    v.get ⟨i, hi⟩ = decide (env.mincore_bytes i % 256 ≠ 0) := by
  rcases wrapper_eq_cases env with
      ⟨e, _, hw⟩ | ⟨s, _, _, hw⟩ | ⟨s, _, _, _, hw⟩ | ⟨s, fs, e, _, _, _, _, hw⟩ |
      ⟨s, fs, a, _, _, _, _, _, _, hw⟩ | ⟨s, fs, a, e, _, _, _, _, _, _, hw⟩ |
      ⟨s, fs, a, e, _, _, _, _, _, _, hw⟩ | ⟨s, fs, a, _, _, _, _, _, _, hw⟩ <;>
    rw [hw] at hok
  · simp at hok
  · simp at hok
  · simp at hok
  · simp at hok
  · simp at hok
  · simp at hok
  · simp at hok
  · injection hok with hv
    subst hv
    simp [List.get_eq_getElem]

/-- C4 (witness): on the concrete byte-2 environment, element 0 of the
result equals the whole-byte test of status byte 0. -/
theorem C4_element_iff_nonzero_byte_witness :
    ([true] : List Bool).get ⟨0, by decide⟩
      = decide (envByteTwo.mincore_bytes 0 % 256 ≠ 0) :=
  C4_element_iff_nonzero_byte envByteTwo [true] (by decide) 0 (by decide)

/-- C5: whenever `fstat` succeeds but reports a file type other than
regular, `mincore_wrapper` returns `Errno::ACCESS` with an empty event
trace — in particular no mapping is ever attempted. -/
theorem C5_non_regular_file_eacces (env : Env) (stat : Stat)
    (hf : env.fstat_result = .ok stat)
    (hnr : FileType.from_raw_mode stat.st_mode ≠ FileType.RegularFile) :
    mincore_wrapper env = (.err Errno.ACCESS, []) ∧
    Event.mmapped ∉ (mincore_wrapper env).2 := by
  have h : mincore_wrapper env = (.err Errno.ACCESS, []) := by
    simp [mincore_wrapper, hf, hnr]
  exact ⟨h, by rw [h]; simp⟩

/-- C5 (witness): a directory handle (`st_mode = 0o040755`) is rejected
with `Errno::ACCESS` and no mapping is attempted. -/
theorem C5_non_regular_file_eacces_witness :
    mincore_wrapper envDir = (.err Errno.ACCESS, []) ∧
    Event.mmapped ∉ (mincore_wrapper envDir).2 :=
  C5_non_regular_file_eacces envDir ⟨0o040755, 0⟩ rfl (by decide)

/-- C6: evaluation at the two decisive inputs.  When the query succeeds and
the release fails (`envMunmapFail`), the release error `EINVAL` is the
call's error and exactly one release is attempted.  But when the query
fails (`envQueryFail 11`), the successfully created mapping sees zero
release attempts — refuting "release is attempted exactly once per
successfully created mapping". -/
theorem C6_release_accounting :
    mincore_wrapper envMunmapFail
      = (.err Errno.INVAL, [.mmapped, .mincored_ok, .munmapped]) ∧
    ((mincore_wrapper envMunmapFail).2.count Event.munmapped = 1) ∧
    (mincore_wrapper (envQueryFail 11)).1 = .err Errno.AGAIN ∧
    Event.mmapped ∈ (mincore_wrapper (envQueryFail 11)).2 ∧
    ((mincore_wrapper (envQueryFail 11)).2.count Event.munmapped = 0) := by
  decide

/-- `(S + P - 1) / P` is the ceiling of `S / P`: it is the least `q` with
`S ≤ P * q`, and on exact multiples it is the exact quotient. -/
theorem ceil_div_spec (S P : Nat) (hP : 0 < P) :
    S ≤ P * ((S + P - 1) / P) ∧
    P * ((S + P - 1) / P) < S + P ∧
    ∀ k, S = k * P → (S + P - 1) / P = k := by
  have hdm := Nat.div_add_mod (S + P - 1) P
  have hrem := Nat.mod_lt (S + P - 1) hP
  refine ⟨?_, ?_, ?_⟩
  · generalize hr : (S + P - 1) % P = r at hdm hrem
    generalize hm : P * ((S + P - 1) / P) = m at hdm ⊢
    omega
  · generalize hr : (S + P - 1) % P = r at hdm hrem
    generalize hm : P * ((S + P - 1) / P) = m at hdm ⊢
    omega
  · intro k hk
    subst hk
    have h1 : k * P + P - 1 = (P - 1) + k * P := by omega
    rw [h1, Nat.add_mul_div_right _ _ hP, Nat.div_eq_of_lt (by omega),
      Nat.zero_add]

/-- C3: on every successful call on a regular file of size `S` with page
size `P`, the result's length is `(S + P - 1) / P`, which is exactly
`ceil(S / P)` (characterized by `S ≤ P * len < S + P`); when `S` is an
exact multiple `k * P` the length is exactly `k`.  The length depends only
on `S` and `P`, not on the status bytes. -/
theorem C3_result_length_is_ceil (env : Env) (stat : Stat) (v : List Bool)
    (hf : env.fstat_result = .ok stat)
    (hsz : 0 ≤ stat.st_size) (hsz' : stat.st_size < 2 ^ 63)
    (hps : 0 < env.page_size) (hps' : env.page_size ≤ 2 ^ 63)
    (hok : (mincore_wrapper env).1 = .ok v) :
    v.length = (stat.st_size.toNat + env.page_size - 1) / env.page_size ∧
    stat.st_size.toNat ≤ env.page_size * v.length ∧
    env.page_size * v.length < stat.st_size.toNat + env.page_size ∧
    (∀ k : Nat, stat.st_size.toNat = k * env.page_size → v.length = k) := by
  rcases wrapper_eq_cases env with
      ⟨e, h1, hw⟩ | ⟨s, h1, h2, hw⟩ | ⟨s, h1, h2, h3, hw⟩ |
      ⟨s, fs, e, h1, h2, h3, h4, hw⟩ | ⟨s, fs, a, h1, h2, h3, h4, h5, h6, hw⟩ |
      ⟨s, fs, a, e, h1, h2, h3, h4, h5, h6, hw⟩ |
      ⟨s, fs, a, e, h1, h2, h3, h4, h5, h6, hw⟩ |
      ⟨s, fs, a, h1, h2, h3, h4, h5, h6, hw⟩ <;>
    rw [hw] at hok
  · simp at hok
  · simp at hok
  · simp at hok
  · simp at hok
  · simp at hok
  · simp at hok
  · simp at hok
  · rw [hf] at h1
    injection h1 with h1'
    subst h1'
    rw [usize_try_from_of_nonneg stat.st_size hsz hsz'] at h3
    injection h3 with h3'
    subst h3'
    injection hok with hv
    subst hv
    have hlen : ((List.range (vec_len_expr stat.st_size.toNat env.page_size)).map
        (fun i => decide (env.mincore_bytes i % 256 ≠ 0))).length
        = (stat.st_size.toNat + env.page_size - 1) / env.page_size := by
      have hS : stat.st_size.toNat < 2 ^ 63 := by omega
      have hmodeq : (stat.st_size.toNat + env.page_size - 1) % USIZE_MOD
          = stat.st_size.toNat + env.page_size - 1 := by
        apply Nat.mod_eq_of_lt
        have h64 : USIZE_MOD = 2 ^ 64 := rfl
        rw [h64]
        have : (2 : Nat) ^ 63 + 2 ^ 63 = 2 ^ 64 := by norm_num
        omega
      simp [vec_len_expr, hmodeq]
    rw [hlen]
    rcases ceil_div_spec stat.st_size.toNat env.page_size hps with ⟨hc1, hc2, hc3⟩
    exact ⟨rfl, hc1, hc2, hc3⟩

/-- C3 (witness): a successful two-page call (`S = 8192`, `P = 4096`)
returns a vector of length `2 = 8192 / 4096`. -/
theorem C3_result_length_is_ceil_witness :
    ([true, false] : List Bool).length
        = ((⟨0o100644, 8192⟩ : Stat).st_size.toNat + envAllOk.page_size - 1)
          / envAllOk.page_size ∧
    (⟨0o100644, 8192⟩ : Stat).st_size.toNat
        ≤ envAllOk.page_size * ([true, false] : List Bool).length ∧
    envAllOk.page_size * ([true, false] : List Bool).length
        < (⟨0o100644, 8192⟩ : Stat).st_size.toNat + envAllOk.page_size ∧
    (∀ k : Nat, (⟨0o100644, 8192⟩ : Stat).st_size.toNat = k * envAllOk.page_size
        → ([true, false] : List Bool).length = k) :=
  C3_result_length_is_ceil envAllOk ⟨0o100644, 8192⟩ [true, false] rfl
    (by decide) (by decide) (by decide) (by decide) (by decide)

/-- C7: if the reported size is not representable (negative, or at least
`2^64`) the wrapper panics on the regular-file path rather than returning a
recoverable error; and the conversion fails on exactly those values, so a
representable size never aborts the conversion. -/
theorem C7_unrepresentable_size_panics :
    (∀ (env : Env) (stat : Stat),
      env.fstat_result = .ok stat →
      FileType.from_raw_mode stat.st_mode = FileType.RegularFile →
      usize_try_from stat.st_size = none →
      (mincore_wrapper env).1 = .panic) ∧
    (∀ v : Int, usize_try_from v = none ↔ v < 0 ∨ (USIZE_MOD : Int) ≤ v) := by
  constructor
  · intro env stat hf hreg ht
    simp [mincore_wrapper, hf, hreg, ht]
  · intro v
    by_cases h : 0 ≤ v ∧ v < (USIZE_MOD : Int)
    · simp only [usize_try_from, if_pos h]
      constructor
      · intro hc; cases hc
      · intro hc; omega
    · simp only [usize_try_from, if_neg h]
      constructor
      · intro _; omega
      · intro _; trivial

/-- C7 (witness): a regular file whose `st_size` is `-1` makes the call
panic, while the representable size `5` converts without aborting. -/
theorem C7_unrepresentable_size_panics_witness :
    (mincore_wrapper envNegSize).1 = .panic ∧
    (usize_try_from (-1) = none ↔ (-1 : Int) < 0 ∨ (USIZE_MOD : Int) ≤ -1) :=
  ⟨C7_unrepresentable_size_panics.1 envNegSize ⟨0o100644, -1⟩ rfl (by decide)
      (by decide),
   C7_unrepresentable_size_panics.2 (-1)⟩

/-- C8: the buffer-length commit (`set_len`) is recorded only with the value
`vec_len` and only after a successful residency query; on every error or
panic outcome no commit happens, so no partially-initialized buffer is ever
exposed, and a successful result has exactly the committed length. -/
theorem C8_commit_only_after_full_fill (env : Env) :
    (∀ n, Event.setLen n ∈ (mincore_wrapper env).2 →
      Event.mincored_ok ∈ (mincore_wrapper env).2 ∧
      ∃ stat fs, env.fstat_result = .ok stat ∧
        usize_try_from stat.st_size = some fs ∧
        n = vec_len_expr fs env.page_size) ∧
    (∀ v, (mincore_wrapper env).1 = .ok v →
      Event.setLen v.length ∈ (mincore_wrapper env).2) ∧
    (∀ e, (mincore_wrapper env).1 = .err e →
      ∀ n, Event.setLen n ∉ (mincore_wrapper env).2) ∧
    ((mincore_wrapper env).1 = .panic →
      ∀ n, Event.setLen n ∉ (mincore_wrapper env).2) := by
  rcases wrapper_eq_cases env with
      ⟨e, h1, hw⟩ | ⟨s, h1, h2, hw⟩ | ⟨s, h1, h2, h3, hw⟩ |
      ⟨s, fs, e, h1, h2, h3, h4, hw⟩ | ⟨s, fs, a, h1, h2, h3, h4, h5, h6, hw⟩ |
      ⟨s, fs, a, e, h1, h2, h3, h4, h5, h6, hw⟩ |
      ⟨s, fs, a, e, h1, h2, h3, h4, h5, h6, hw⟩ |
      ⟨s, fs, a, h1, h2, h3, h4, h5, h6, hw⟩ <;>
    rw [hw]
  · exact ⟨fun n hn => absurd hn (by simp), fun v hv => by simp at hv,
      fun e' he' n => by simp, fun hp n => by simp⟩
  · exact ⟨fun n hn => absurd hn (by simp), fun v hv => by simp at hv,
      fun e' he' n => by simp, fun hp n => by simp⟩
  · exact ⟨fun n hn => absurd hn (by simp), fun v hv => by simp at hv,
      fun e' he' n => by simp, fun hp n => by simp⟩
  · exact ⟨fun n hn => absurd hn (by simp), fun v hv => by simp at hv,
      fun e' he' n => by simp, fun hp n => by simp⟩
  · exact ⟨fun n hn => absurd hn (by simp), fun v hv => by simp at hv,
      fun e' he' n => by simp, fun hp n => by simp⟩
  · exact ⟨fun n hn => absurd hn (by simp), fun v hv => by simp at hv,
      fun e' he' n => by simp, fun hp n => by simp⟩
  · exact ⟨fun n hn => absurd hn (by simp), fun v hv => by simp at hv,
      fun e' he' n => by simp, fun hp n => by simp⟩
  · refine ⟨?_, ?_, ?_, ?_⟩
    · intro n hn
      simp at hn
      exact ⟨by simp, s, fs, h1, h3, hn⟩
    · intro v hv
      injection hv with hv'
      subst hv'
      simp
    · intro e' he' n
      simp at he'
    · intro hp n
      simp at hp

/-- C8 (witness): on the successful two-page call, the commit event carries
exactly the computed `vec_len` and follows a successful query. -/
theorem C8_commit_only_after_full_fill_witness :
    Event.mincored_ok ∈ (mincore_wrapper envAllOk).2 ∧
    ∃ stat fs, envAllOk.fstat_result = .ok stat ∧
      usize_try_from stat.st_size = some fs ∧
      2 = vec_len_expr fs envAllOk.page_size :=
  (C8_commit_only_after_full_fill envAllOk).1 2 (by decide)

/-- C9: given exactly one argument (an argument vector of length two:
program name plus path), a successful open and a successful probe, the
consumer prints `Mapped page count <resident>/<total>` with the resident
count the number of `true` elements and the total the vector length; for
any other argument count, an open failure, or a probe failure, it returns
an error message (and hence exits non-zero). -/
theorem C9_vmtouch_lite_behaviour (args_vec : List String)
    (open_result : Except String Unit)
    (probe_result : Except String (List Bool)) :
    (∀ v, args_vec.length = 2 → open_result = .ok () → probe_result = .ok v →
      vmtouch_main args_vec open_result probe_result =
        .ok ("Mapped page count " ++ toString (v.filter (fun x => x)).length
              ++ "/" ++ toString v.length)) ∧
    (args_vec.length ≠ 2 →
      ∃ msg, vmtouch_main args_vec open_result probe_result = .error msg) ∧
    (∀ e, args_vec.length = 2 → open_result = .error e →
      vmtouch_main args_vec open_result probe_result =
        .error ("Error opening file: " ++ e)) ∧
    (∀ e, args_vec.length = 2 → open_result = .ok () → probe_result = .error e →
      vmtouch_main args_vec open_result probe_result =
        .error ("Error finding cached blocks: " ++ e)) := by
  refine ⟨?_, ?_, ?_, ?_⟩
  · intro v hlen hop hpr
    simp [vmtouch_main, hlen, hop, hpr]
  · intro hlen
    refine ⟨"Usage: " ++ args_vec.headD "" ++ " [filename]", ?_⟩
    simp [vmtouch_main, hlen]
  · intro e hlen hop
    simp [vmtouch_main, hlen, hop]
  · intro e hlen hop hpr
    simp [vmtouch_main, hlen, hop, hpr]

/-- C9 (witness): with one path argument and a probe result of three pages
of which two are resident, the consumer prints the 2-of-3 summary line. -/
theorem C9_vmtouch_lite_behaviour_witness :
    vmtouch_main ["vmtouch_lite", "somefile"] (.ok ()) (.ok [true, false, true])
      = .ok ("Mapped page count "
          ++ toString (([true, false, true] : List Bool).filter (fun x => x)).length
          ++ "/" ++ toString ([true, false, true] : List Bool).length) :=
  (C9_vmtouch_lite_behaviour ["vmtouch_lite", "somefile"] (.ok ())
      (.ok [true, false, true])).1 [true, false, true] rfl rfl rfl

/-- C10: whenever the call reaches the residency-query failure path and the
failing query has left a valid Linux error number in `errno` (the OS
guarantee the code relies on), the wrapper returns that error — the
`unwrap` after `Errno::from_io_error` does not panic. -/
theorem C10_query_failure_returns_error (env : Env) (stat : Stat)
    (fs addr : Nat)
    (hf : env.fstat_result = .ok stat)
    (hreg : FileType.from_raw_mode stat.st_mode = FileType.RegularFile)
    (ht : usize_try_from stat.st_size = some fs)
    (hm : env.mmap_result = .ok addr)
    (hr : env.mincore_ret ≠ 0)
    (he1 : 1 ≤ env.errno_after_mincore) (he2 : env.errno_after_mincore < 4096) :
    (mincore_wrapper env).1 = .err env.errno_after_mincore.toNat ∧
    (mincore_wrapper env).1 ≠ .panic := by
  have he : errno_from_io_error (last_os_error_raw env.errno_after_mincore)
      = some env.errno_after_mincore.toNat := by
    simp [errno_from_io_error, last_os_error_raw, he1, he2]
  have h : (mincore_wrapper env).1 = .err env.errno_after_mincore.toNat := by
    simp [mincore_wrapper, hf, hreg, ht, hm, hr, he]
  exact ⟨h, by rw [h]; simp⟩

/-- C10 (witness): a query failure with `errno = 7` yields the error `7`
and no panic. -/
theorem C10_query_failure_returns_error_witness :
    (mincore_wrapper (envQueryFail 7)).1 = .err 7 ∧
    (mincore_wrapper (envQueryFail 7)).1 ≠ .panic := by
  have h := C10_query_failure_returns_error (envQueryFail 7) ⟨0o100644, 4096⟩
    4096 1 rfl (by decide) (by decide) rfl (by decide) (by decide) (by decide)
  simpa using h

end Mincore
